import Mathlib

/-!
Shallow embedding of the vehicle-management program
`Objektorientierte_Programmierung_mit_Python_PhilippManich.py`.

The Python program defines an abstract class `Fahrzeug` with three concrete
subclasses `Auto`, `Elektroauto` and `Motorrad`, a serialization to a tagged
dict (`to_dict` / `from_dict`) and a store class `Fahrzeugverwaltung` with
JSON persistence (`speichern` / `laden`).

Modelling decisions:
- Python runtime values occurring as vehicle fields / dict values are
  modelled by `Val` (strings, ints, and floats; the floats entering the
  program come from decimal user input, so they are modelled as fixed-point
  decimals `m * 10 ^ (-e)`, and `str()` of such a float renders the decimal
  digits, matching CPython on these values).
- Python dicts are modelled as association lists in insertion order
  (CPython dicts preserve insertion order); keys are unique in every dict
  the program builds.
- A raised Python exception is modelled as `Except.error` carrying a
  message string; `None` results are `Option.none`.
- The file system and stdout are modelled by an explicit `World` record:
  the JSON file is either absent (`FileNotFoundError`), unparseable
  (`json.JSONDecodeError`) or a list of records, and diagnostic `print`
  calls append to a log.
-/

/-- A Python runtime value as it occurs in this program: a string, an int,
or a float written as the decimal `m * 10 ^ (-e)`. -/
inductive Val where
  | vstr (s : String)
  | vint (n : Int)
  | vdec (m : Int) (e : Nat)
  deriving DecidableEq, Repr

/-- `str()` of a `Val`, as CPython renders it: strings verbatim, ints in
decimal, and a decimal float with its digits after the point (CPython
prints a float that is an integer with a trailing `.0`, which is the
`e = 0` case here). -/
def Val.pyStr : Val → String
  | .vstr s => s
  | .vint n => toString n
  | .vdec m e =>
      if e = 0 then toString m ++ ".0"
      else
        let n := m.natAbs
        let ip := n / 10 ^ e
        let fp := n % 10 ^ e
        let fpDigits := toString fp
        let pad := String.mk (List.replicate (e - fpDigits.length) '0')
        (if m < 0 then "-" else "") ++ toString ip ++ "." ++ pad ++ fpDigits

/-- A Python dict of this program: an association list in insertion order. -/
abbrev Record := List (String × Val)

/-- `data.get(key, None)`: first value stored under `key`, if any. -/
def Record.get : Record → String → Option Val
  | [], _ => none
  | (k, v) :: r, key => if k = key then some v else Record.get r key

/-- `data.pop(key, None)` restricted to its effect on the dict: the record
without the entry for `key`. -/
def Record.popKey (r : Record) (key : String) : Record :=
  r.filter (fun kv => kv.1 ≠ key)

/-- The keys of a record, in insertion order. -/
def Record.keys (r : Record) : List String :=
  r.map Prod.fst

/-- The vehicle data model: the abstract class `Fahrzeug` together with its
three concrete subclasses.  `Fahrzeug` itself is abstract (it cannot be
instantiated), so a value is exactly one of the three variants; each carries
the five shared fields plus its variant-specific field. -/
inductive Fahrzeug where
  | auto (marke modell baujahr geschwindigkeit beschleunigung kraftstoff : Val)
  | elektroauto (marke modell baujahr geschwindigkeit beschleunigung energiequelle : Val)
  | motorrad (marke modell baujahr geschwindigkeit beschleunigung kraftstoff : Val)
  deriving DecidableEq, Repr

namespace Fahrzeug

/-- Shared field `self.marke`. -/
def marke : Fahrzeug → Val
  | .auto ma _ _ _ _ _ => ma
  | .elektroauto ma _ _ _ _ _ => ma
  | .motorrad ma _ _ _ _ _ => ma

/-- Shared field `self.modell`. -/
def modell : Fahrzeug → Val
  | .auto _ mo _ _ _ _ => mo
  | .elektroauto _ mo _ _ _ _ => mo
  | .motorrad _ mo _ _ _ _ => mo

/-- Shared field `self.baujahr`. -/
def baujahr : Fahrzeug → Val
  | .auto _ _ bj _ _ _ => bj
  | .elektroauto _ _ bj _ _ _ => bj
  | .motorrad _ _ bj _ _ _ => bj

/-- Shared field `self.geschwindigkeit`. -/
def geschwindigkeit : Fahrzeug → Val
  | .auto _ _ _ ge _ _ => ge
  | .elektroauto _ _ _ ge _ _ => ge
  | .motorrad _ _ _ ge _ _ => ge

/-- Shared field `self.beschleunigung`. -/
def beschleunigung : Fahrzeug → Val
  | .auto _ _ _ _ be _ => be
  | .elektroauto _ _ _ _ be _ => be
  | .motorrad _ _ _ _ be _ => be

/-- `Fahrzeug.beschleunigen` (the base-class body): the shared wording
`f" {marke} {modell} beschleunigt in {beschleunigung} Sekunden auf 100 km/h!"`. -/
def beschleunigenBase (ma mo be : Val) : String :=
  " " ++ ma.pyStr ++ " " ++ mo.pyStr ++ " beschleunigt in " ++ be.pyStr
    ++ " Sekunden auf 100 km/h!"

/-- `beschleunigen()` of each variant; all three override the abstract method
only to call `super().beschleunigen()`, the base wording. -/
def beschleunigen : Fahrzeug → String
  | .auto ma mo _ _ be _ => beschleunigenBase ma mo be
  | .elektroauto ma mo _ _ be _ => beschleunigenBase ma mo be
  | .motorrad ma mo _ _ be _ => beschleunigenBase ma mo be

/-- `Fahrzeug.__str__` (the base-class body):
`f"{marke} {modell} ({baujahr}) | {geschwindigkeit} km/h"`. -/
def strBase (ma mo bj ge : Val) : String :=
  ma.pyStr ++ " " ++ mo.pyStr ++ " (" ++ bj.pyStr ++ ") | " ++ ge.pyStr ++ " km/h"

/-- `__str__()` of each variant: the base summary extended with
`" | Kraftstoff: X"` (`Auto`, `Motorrad`) or `" | Energiequelle: X"`
(`Elektroauto`). -/
def toStr : Fahrzeug → String
  | .auto ma mo bj ge _ kr => strBase ma mo bj ge ++ " | Kraftstoff: " ++ kr.pyStr
  | .elektroauto ma mo bj ge _ en => strBase ma mo bj ge ++ " | Energiequelle: " ++ en.pyStr
  | .motorrad ma mo bj ge _ kr => strBase ma mo bj ge ++ " | Kraftstoff: " ++ kr.pyStr

/-- `to_dict()`: the base dict `{"typ": type(self).__name__, "marke": ...,
"modell": ..., "baujahr": ..., "geschwindigkeit": ..., "beschleunigung": ...}`
to which each subclass appends its own variant-specific entry. -/
def to_dict : Fahrzeug → Record
  | .auto ma mo bj ge be kr =>
      [("typ", .vstr "Auto"), ("marke", ma), ("modell", mo), ("baujahr", bj),
       ("geschwindigkeit", ge), ("beschleunigung", be), ("kraftstoff", kr)]
  | .elektroauto ma mo bj ge be en =>
      [("typ", .vstr "Elektroauto"), ("marke", ma), ("modell", mo), ("baujahr", bj),
       ("geschwindigkeit", ge), ("beschleunigung", be), ("energiequelle", en)]
  | .motorrad ma mo bj ge be kr =>
      [("typ", .vstr "Motorrad"), ("marke", ma), ("modell", mo), ("baujahr", bj),
       ("geschwindigkeit", ge), ("beschleunigung", be), ("kraftstoff", kr)]

end Fahrzeug

/-- The keyword-argument names accepted by `Auto.__init__` and
`Motorrad.__init__` (besides `self`). -/
def fuelKeys : List String :=
  ["marke", "modell", "baujahr", "geschwindigkeit", "beschleunigung", "kraftstoff"]

/-- The keyword-argument names accepted by `Elektroauto.__init__`. -/
def elektroKeys : List String :=
  ["marke", "modell", "baujahr", "geschwindigkeit", "beschleunigung", "energiequelle"]

/-- `Auto(**data)`: binds each `__init__` parameter by name; a missing
parameter or an unexpected keyword raises a `TypeError` (modelled as
`Except.error`). -/
def mkAuto (data : Record) : Except String Fahrzeug :=
  if data.keys.all (fun k => fuelKeys.contains k) then
    match data.get "marke", data.get "modell", data.get "baujahr",
          data.get "geschwindigkeit", data.get "beschleunigung",
          data.get "kraftstoff" with
    | some ma, some mo, some bj, some ge, some be, some kr =>
        .ok (.auto ma mo bj ge be kr)
    | _, _, _, _, _, _ =>
        .error "TypeError: Auto.__init__ missing required keyword argument"
  else .error "TypeError: Auto.__init__ got an unexpected keyword argument"

/-- `Motorrad(**data)`: same parameter list as `Auto`. -/
def mkMotorrad (data : Record) : Except String Fahrzeug :=
  if data.keys.all (fun k => fuelKeys.contains k) then
    match data.get "marke", data.get "modell", data.get "baujahr",
          data.get "geschwindigkeit", data.get "beschleunigung",
          data.get "kraftstoff" with
    | some ma, some mo, some bj, some ge, some be, some kr =>
        .ok (.motorrad ma mo bj ge be kr)
    | _, _, _, _, _, _ =>
        .error "TypeError: Motorrad.__init__ missing required keyword argument"
  else .error "TypeError: Motorrad.__init__ got an unexpected keyword argument"

/-- `Elektroauto(**data)`: `energiequelle` in place of `kraftstoff`. -/
def mkElektroauto (data : Record) : Except String Fahrzeug :=
  if data.keys.all (fun k => elektroKeys.contains k) then
    match data.get "marke", data.get "modell", data.get "baujahr",
          data.get "geschwindigkeit", data.get "beschleunigung",
          data.get "energiequelle" with
    | some ma, some mo, some bj, some ge, some be, some en =>
        .ok (.elektroauto ma mo bj ge be en)
    | _, _, _, _, _, _ =>
        .error "TypeError: Elektroauto.__init__ missing required keyword argument"
  else .error "TypeError: Elektroauto.__init__ got an unexpected keyword argument"

namespace Fahrzeug

/-- `Fahrzeug.from_dict(data)` together with the final state of the caller's
dict.  The body mirrors the source line by line: read `data.get("typ", None)`,
take a copy `dict(data)`, `pop("typ")` from the copy (never from the caller's
dict, which is returned unchanged as the second component), then dispatch on
the typ string; an unknown or absent typ returns `None`; a constructor
keyword mismatch propagates as an error. -/
def from_dictEff (data : Record) : Except String (Option Fahrzeug) × Record :=
  let typ := data.get "typ"
  let copy := data
  let copy := copy.popKey "typ"
  let res : Except String (Option Fahrzeug) :=
    if typ = some (.vstr "Auto") then (mkAuto copy).map some
    else if typ = some (.vstr "Elektroauto") then (mkElektroauto copy).map some
    else if typ = some (.vstr "Motorrad") then (mkMotorrad copy).map some
    else .ok none
  (res, data)

/-- `Fahrzeug.from_dict(data)`: the decoded result alone. -/
def from_dict (data : Record) : Except String (Option Fahrzeug) :=
  (from_dictEff data).1

end Fahrzeug

/-- The state of the backing store `fahrzeuge.json` as `laden` observes it:
absent (`open` raises `FileNotFoundError`), present but not parseable JSON
(`json.load` raises `json.JSONDecodeError`; an empty file is this case), or
a parsed list of records. -/
inductive FileState where
  | missing
  | invalid
  | content (rs : List Record)
  deriving DecidableEq, Repr

/-- The program's outside world: the backing store, whether the next write
will fail (with which message), and the lines printed so far. -/
structure World where
  file : FileState
  writeError : Option String
  log : List String
  deriving DecidableEq, Repr

/-- The store class `Fahrzeugverwaltung`: its in-memory ordered collection. -/
structure Fahrzeugverwaltung where
  fahrzeuge : List Fahrzeug
  deriving DecidableEq, Repr

namespace Fahrzeugverwaltung

/-- The diagnostic `laden` prints for a record whose decoding raised. -/
def skipMsg (e : String) : String :=
  " Ungültiger Eintrag übersprungen: " ++ e

/-- The per-record loop body of `laden` over a parsed record list: each
record is decoded with `Fahrzeug.from_dict` inside `try/except`; a raised
exception prints a diagnostic and the record is skipped, a `None` result is
skipped silently, a vehicle is appended.  Returns the collected vehicles in
order and the diagnostics in order. -/
def ladenLoop : List Record → List Fahrzeug × List String
  | [] => ([], [])
  | r :: rs =>
      let rest := ladenLoop rs
      match Fahrzeug.from_dict r with
      | .error e => (rest.1, skipMsg e :: rest.2)
      | .ok none => rest
      | .ok (some v) => (v :: rest.1, rest.2)

/-- `laden()`: opens and parses the backing store; on `FileNotFoundError` or
`json.JSONDecodeError` it does nothing (`pass`), otherwise it resets the
collection and runs the per-record loop, printing the loop's diagnostics. -/
def laden (verw : Fahrzeugverwaltung) (w : World) : Fahrzeugverwaltung × World :=
  match w.file with
  | .content rs =>
      (⟨(ladenLoop rs).1⟩, { w with log := w.log ++ (ladenLoop rs).2 })
  | _ => (verw, w)

/-- `Fahrzeugverwaltung.__init__`: starts with an empty collection, then
calls `laden()`. -/
def construct (w : World) : Fahrzeugverwaltung × World :=
  laden ⟨[]⟩ w

/-- `speichern()`: serializes every vehicle with `to_dict` and rewrites the
whole backing store; any exception is caught and printed
(`f" Fehler beim Speichern: {e}"`), never re-raised. -/
def speichern (verw : Fahrzeugverwaltung) (w : World) : World :=
  match w.writeError with
  | none => { w with file := .content (verw.fahrzeuge.map Fahrzeug.to_dict) }
  | some e => { w with log := w.log ++ [" Fehler beim Speichern: " ++ e] }

/-- `fahrzeug_hinzufuegen(fahrzeug)`: appends to the collection, then calls
`speichern()`. -/
def fahrzeug_hinzufuegen (verw : Fahrzeugverwaltung) (v : Fahrzeug) (w : World) :
    Fahrzeugverwaltung × World :=
  let verw' : Fahrzeugverwaltung := ⟨verw.fahrzeuge ++ [v]⟩
  (verw', speichern verw' w)

end Fahrzeugverwaltung

/-- The subset of `from_dict` outcomes that yield a vehicle: the records
`laden` actually keeps. -/
def decodedVehicle (r : Record) : Option Fahrzeug :=
  match Fahrzeug.from_dict r with
  | .ok (some v) => some v
  | _ => none

/-- Whether an `Option Val` read from the `"typ"` entry is one of the three
recognized variant-name strings. -/
def recognizedTyp (o : Option Val) : Bool :=
  o = some (.vstr "Auto") || o = some (.vstr "Elektroauto") || o = some (.vstr "Motorrad")

/-- Sample vehicle from the spec scenario: the Toyota Yaris `Auto`. -/
def yarisAuto : Fahrzeug :=
  .auto (.vstr "Toyota") (.vstr "Yaris") (.vint 2020) (.vint 170) (.vdec 95 1)
    (.vstr "Petrol")

/-- Sample `Elektroauto` used in concrete instantiations. -/
def sampleElektro : Fahrzeug :=
  .elektroauto (.vstr "Tesla") (.vstr "Model 3") (.vint 2022) (.vint 225) (.vdec 61 1)
    (.vstr "Strom")

/-- Sample `Motorrad` used in concrete instantiations. -/
def sampleMotorrad : Fahrzeug :=
  .motorrad (.vstr "BMW") (.vstr "R 1250") (.vint 2021) (.vint 219) (.vdec 35 1)
    (.vstr "Benzin")

/-- A record with a declared `typ` of `"Auto"` but none of the required
constructor fields: decoding it raises a `TypeError`. -/
def missingFieldsRec : Record := [("typ", Val.vstr "Auto")]

/-- A record carrying a `"kind"` entry with an unrecognized value alongside
a well-formed `Auto` payload keyed by `"typ"`. -/
def kindKeyRec : Record :=
  [("kind", Val.vstr "Unicycle"), ("typ", Val.vstr "Auto"), ("marke", Val.vstr "VW"),
   ("modell", Val.vstr "Golf"), ("baujahr", Val.vint 2018),
   ("geschwindigkeit", Val.vint 210), ("beschleunigung", Val.vdec 85 1),
   ("kraftstoff", Val.vstr "Diesel")]

/-- A record whose `typ` entry holds an unrecognized variant name. -/
def unicycleRec : Record := [("typ", Val.vstr "Unicycle")]

/-- A world whose backing store is absent and whose next write would fail. -/
def worldMissingStore : World := { file := .missing, writeError := none, log := [] }

/-- A world whose next write raises (for instance a permission error). -/
def worldWriteFails : World :=
  { file := .missing, writeError := some "Errno 13", log := [] }

/-- The message of the `TypeError` raised by `Auto(**data)` when a required
field is absent. -/
def autoMissingMsg : String :=
  "TypeError: Auto.__init__ missing required keyword argument"

lemma recognizedTyp_false_iff (o : Option Val) :
    recognizedTyp o = false ↔
      o ≠ some (.vstr "Auto") ∧ o ≠ some (.vstr "Elektroauto") ∧
        o ≠ some (.vstr "Motorrad") := by
  simp [recognizedTyp, and_assoc]

lemma fromDict_none_of_unrecognized (r : Record)
    (h : recognizedTyp (r.get "typ") = false) :
    Fahrzeug.from_dict r = .ok none := by
  obtain ⟨h1, h2, h3⟩ := (recognizedTyp_false_iff _).mp h
  simp [Fahrzeug.from_dict, Fahrzeug.from_dictEff, h1, h2, h3]

lemma ladenLoop_fst_eq_filterMap (rs : List Record) :
    (Fahrzeugverwaltung.ladenLoop rs).1 = rs.filterMap decodedVehicle := by
  induction rs with
  | nil => rfl
  | cons r rs ih =>
      rw [List.filterMap_cons]
      cases h : Fahrzeug.from_dict r with
      | error e => simp [Fahrzeugverwaltung.ladenLoop, decodedVehicle, h, ih]
      | ok o => cases o <;> simp [Fahrzeugverwaltung.ladenLoop, decodedVehicle, h, ih]

lemma ladenLoop_append (as bs : List Record) :
    Fahrzeugverwaltung.ladenLoop (as ++ bs) =
      ((Fahrzeugverwaltung.ladenLoop as).1 ++ (Fahrzeugverwaltung.ladenLoop bs).1,
       (Fahrzeugverwaltung.ladenLoop as).2 ++ (Fahrzeugverwaltung.ladenLoop bs).2) := by
  induction as with
  | nil => simp [Fahrzeugverwaltung.ladenLoop]
  | cons r as ih =>
      cases h : Fahrzeug.from_dict r with
      | error e => simp [Fahrzeugverwaltung.ladenLoop, h, ih]
      | ok o => cases o <;> simp [Fahrzeugverwaltung.ladenLoop, h, ih]

/-- Claim C1: decoding the tagged record produced by encoding any vehicle of
any of the three variants yields the same vehicle back, every attribute
(including the variant-specific one) intact. -/
theorem fromDict_toDict_roundtrip (v : Fahrzeug) :
    Fahrzeug.from_dict (Fahrzeug.to_dict v) = .ok (some v) := by
  cases v <;> rfl

/-- Claim C2, counterexample: the tagged record of a concrete `Auto` holds no
entry under the key `"kind"` at all — the discriminator entry the code writes
is keyed `"typ"`, so the claim's key name is wrong. -/
theorem toDict_has_no_kind_key :
    (Fahrzeug.to_dict yarisAuto).get "kind" = none ∧
      (Fahrzeug.to_dict yarisAuto).get "typ" = some (.vstr "Auto") := by
  exact ⟨rfl, rfl⟩

/-- Claim C2 as amended: for every vehicle the tagged record holds the
discriminator under the key `"typ"` (not `"kind"`), set to the variant's
literal name, together with the five shared keys and exactly one
variant-specific key. -/
theorem toDict_typ_and_keys :
    ∀ ma mo bj ge be x : Val,
      ((Fahrzeug.to_dict (.auto ma mo bj ge be x)).get "typ" = some (.vstr "Auto") ∧
        (Fahrzeug.to_dict (.auto ma mo bj ge be x)).keys =
          ["typ", "marke", "modell", "baujahr", "geschwindigkeit",
           "beschleunigung", "kraftstoff"]) ∧
      ((Fahrzeug.to_dict (.elektroauto ma mo bj ge be x)).get "typ" =
          some (.vstr "Elektroauto") ∧
        (Fahrzeug.to_dict (.elektroauto ma mo bj ge be x)).keys =
          ["typ", "marke", "modell", "baujahr", "geschwindigkeit",
           "beschleunigung", "energiequelle"]) ∧
      ((Fahrzeug.to_dict (.motorrad ma mo bj ge be x)).get "typ" =
          some (.vstr "Motorrad") ∧
        (Fahrzeug.to_dict (.motorrad ma mo bj ge be x)).keys =
          ["typ", "marke", "modell", "baujahr", "geschwindigkeit",
           "beschleunigung", "kraftstoff"]) :=
  fun _ _ _ _ _ _ => ⟨⟨rfl, rfl⟩, ⟨rfl, rfl⟩, ⟨rfl, rfl⟩⟩

/-- Claim C3, counterexample: a record whose `"kind"` entry is the
unrecognized value `"Unicycle"` for which `from_dict` nevertheless raises a
`TypeError` instead of returning the absent result — the decoder never reads
a `"kind"` entry, it dispatches on `"typ"`. -/
theorem fromDict_kind_key_raises :
    kindKeyRec.get "kind" = some (.vstr "Unicycle") ∧
      recognizedTyp (kindKeyRec.get "kind") = false ∧
      Fahrzeug.from_dict kindKeyRec =
        .error "TypeError: Auto.__init__ got an unexpected keyword argument" :=
  ⟨rfl, rfl, rfl⟩

/-- Claim C3 as amended: for every record whose `"typ"` entry is missing or
not one of the three recognized variant names, `from_dict` returns `None`
without raising, and during a load such a record is dropped without affecting
the decoding of sibling records (collection and diagnostics are those of the
list with the record removed). -/
theorem fromDict_unrecognized_typ (r : Record) (rs₁ rs₂ : List Record)
    (h : recognizedTyp (r.get "typ") = false) :
    Fahrzeug.from_dict r = .ok none ∧
      Fahrzeugverwaltung.ladenLoop (rs₁ ++ r :: rs₂) =
        Fahrzeugverwaltung.ladenLoop (rs₁ ++ rs₂) := by
  have h1 := fromDict_none_of_unrecognized r h
  refine ⟨h1, ?_⟩
  induction rs₁ with
  | nil => simp [Fahrzeugverwaltung.ladenLoop, h1]
  | cons a as ih =>
      cases ha : Fahrzeug.from_dict a with
      | error e => simp [Fahrzeugverwaltung.ladenLoop, ha, ih]
      | ok o => cases o <;> simp [Fahrzeugverwaltung.ladenLoop, ha, ih]

/-- Witness for `fromDict_unrecognized_typ` at a concrete unrecognized record
between two sibling records. -/
theorem fromDict_unrecognized_typ_witness :
    Fahrzeug.from_dict unicycleRec = .ok none ∧
      Fahrzeugverwaltung.ladenLoop
          ([Fahrzeug.to_dict yarisAuto] ++ unicycleRec :: [Fahrzeug.to_dict sampleElektro]) =
        Fahrzeugverwaltung.ladenLoop
          ([Fahrzeug.to_dict yarisAuto] ++ [Fahrzeug.to_dict sampleElektro]) :=
  fromDict_unrecognized_typ unicycleRec [Fahrzeug.to_dict yarisAuto]
    [Fahrzeug.to_dict sampleElektro] rfl

/-- Claim C4: `from_dict` leaves the dict it was given unchanged — the body
copies the input and pops `"typ"` only from the copy, so the caller's record
after the call is exactly the record before it, whatever the outcome. -/
theorem fromDictEff_input_unchanged (data : Record) :
    Fahrzeug.from_dictEff data = (Fahrzeug.from_dict data, data) :=
  rfl

/-- Claim C5: a load collects exactly the successfully decoded records in
stored order, and a record whose decoding raises is skipped with a diagnostic
while every sibling record (before and after it) is still processed. -/
theorem laden_skips_and_continues :
    (∀ rs : List Record,
        (Fahrzeugverwaltung.ladenLoop rs).1 = rs.filterMap decodedVehicle) ∧
      ∀ (rs₁ : List Record) (r : Record) (rs₂ : List Record) (e : String),
        Fahrzeug.from_dict r = .error e →
          (Fahrzeugverwaltung.ladenLoop (rs₁ ++ r :: rs₂)).1 =
              (rs₁ ++ rs₂).filterMap decodedVehicle ∧
            Fahrzeugverwaltung.skipMsg e ∈
              (Fahrzeugverwaltung.ladenLoop (rs₁ ++ r :: rs₂)).2 := by
  refine ⟨ladenLoop_fst_eq_filterMap, ?_⟩
  intro rs₁ r rs₂ e h
  have hd : decodedVehicle r = none := by simp [decodedVehicle, h]
  constructor
  · rw [ladenLoop_fst_eq_filterMap]
    simp [List.filterMap_append, List.filterMap_cons, hd]
  · rw [ladenLoop_append rs₁ (r :: rs₂)]
    simp [Fahrzeugverwaltung.ladenLoop, h]

/-- Witness for `laden_skips_and_continues`: a record declaring `typ "Auto"`
but missing every constructor field raises, is skipped with a diagnostic, and
its two valid siblings are both decoded. -/
theorem laden_skips_and_continues_witness :
    (Fahrzeugverwaltung.ladenLoop
          ([Fahrzeug.to_dict yarisAuto] ++ missingFieldsRec :: [Fahrzeug.to_dict sampleMotorrad])).1 =
        ([Fahrzeug.to_dict yarisAuto] ++ [Fahrzeug.to_dict sampleMotorrad]).filterMap
          decodedVehicle ∧
      Fahrzeugverwaltung.skipMsg autoMissingMsg ∈
        (Fahrzeugverwaltung.ladenLoop
          ([Fahrzeug.to_dict yarisAuto] ++ missingFieldsRec :: [Fahrzeug.to_dict sampleMotorrad])).2 :=
  laden_skips_and_continues.2 [Fahrzeug.to_dict yarisAuto] missingFieldsRec
    [Fahrzeug.to_dict sampleMotorrad] autoMissingMsg rfl

/-- Claim C6: constructing the store over an absent or unparseable backing
store yields an empty collection and raises nothing; the world (store file
and log) is untouched. -/
theorem construct_empty_on_missing_store (w : World)
    (h : w.file = .missing ∨ w.file = .invalid) :
    (Fahrzeugverwaltung.construct w).1.fahrzeuge = [] ∧
      (Fahrzeugverwaltung.construct w).2 = w := by
  cases h with
  | inl h => simp [Fahrzeugverwaltung.construct, Fahrzeugverwaltung.laden, h]
  | inr h => simp [Fahrzeugverwaltung.construct, Fahrzeugverwaltung.laden, h]

/-- Witness for `construct_empty_on_missing_store` at a concrete world with
no backing store. -/
theorem construct_empty_on_missing_store_witness :
    (Fahrzeugverwaltung.construct worldMissingStore).1.fahrzeuge = [] ∧
      (Fahrzeugverwaltung.construct worldMissingStore).2 = worldMissingStore :=
  construct_empty_on_missing_store worldMissingStore (Or.inl rfl)

/-- Claim C7: `fahrzeug_hinzufuegen` appends the vehicle at the end of the
collection and then saves the whole collection; when the write succeeds the
store file holds every record, and when it fails the error is only logged
(the call still returns, the file is untouched) while the in-memory
collection keeps the new entry in both cases. -/
theorem hinzufuegen_appends_and_saves (verw : Fahrzeugverwaltung) (v : Fahrzeug)
    (w : World) :
    (Fahrzeugverwaltung.fahrzeug_hinzufuegen verw v w).1.fahrzeuge =
        verw.fahrzeuge ++ [v] ∧
      (w.writeError = none →
        (Fahrzeugverwaltung.fahrzeug_hinzufuegen verw v w).2 =
          { w with file := .content ((verw.fahrzeuge ++ [v]).map Fahrzeug.to_dict) }) ∧
      ∀ e, w.writeError = some e →
        (Fahrzeugverwaltung.fahrzeug_hinzufuegen verw v w).2 =
          { w with log := w.log ++ [" Fehler beim Speichern: " ++ e] } := by
  refine ⟨rfl, ?_, ?_⟩
  · intro h
    simp [Fahrzeugverwaltung.fahrzeug_hinzufuegen, Fahrzeugverwaltung.speichern, h]
  · intro e h
    simp [Fahrzeugverwaltung.fahrzeug_hinzufuegen, Fahrzeugverwaltung.speichern, h]

/-- Witness for `hinzufuegen_appends_and_saves` at a concrete store whose
write fails: the vehicle is still appended and the failure is only logged. -/
theorem hinzufuegen_appends_and_saves_witness :
    (Fahrzeugverwaltung.fahrzeug_hinzufuegen ⟨[yarisAuto]⟩ sampleElektro worldWriteFails).1.fahrzeuge =
        [yarisAuto] ++ [sampleElektro] ∧
      (Fahrzeugverwaltung.fahrzeug_hinzufuegen ⟨[yarisAuto]⟩ sampleElektro worldWriteFails).2 =
        { worldWriteFails with
            log := worldWriteFails.log ++ [" Fehler beim Speichern: " ++ "Errno 13"] } :=
  ⟨(hinzufuegen_appends_and_saves ⟨[yarisAuto]⟩ sampleElektro worldWriteFails).1,
    (hinzufuegen_appends_and_saves ⟨[yarisAuto]⟩ sampleElektro worldWriteFails).2.2
      "Errno 13" rfl⟩

/-- Claim C8, counterexample: the concrete `Auto` of the spec scenario is
described by `"Toyota Yaris (2020) | 170 km/h | Kraftstoff: Petrol"`, whose
text nowhere contains `"Fuel: Petrol"` — the program labels the fuel field
`Kraftstoff`, not `Fuel`, and the energy field `Energiequelle`, not
`Energy`. -/
theorem describe_no_english_fuel_label :
    Fahrzeug.toStr yarisAuto = "Toyota Yaris (2020) | 170 km/h | Kraftstoff: Petrol" ∧
      ¬ ("Fuel: Petrol".data <:+: (Fahrzeug.toStr yarisAuto).data) := by
  refine ⟨rfl, ?_⟩
  decide

/-- Claim C8 as amended: `__str__` returns
`"marke modell (baujahr) | geschwindigkeit km/h"` extended with
`" | Kraftstoff: X"` for `Auto` and `Motorrad` or `" | Energiequelle: X"` for
`Elektroauto`; in particular the spec-scenario car is described by text
containing `"Toyota Yaris (2020) | 170 km/h | Kraftstoff: Petrol"`. -/
theorem describe_format :
    (∀ ma mo bj ge be kr : Val,
        Fahrzeug.toStr (.auto ma mo bj ge be kr) =
          ma.pyStr ++ " " ++ mo.pyStr ++ " (" ++ bj.pyStr ++ ") | " ++ ge.pyStr
            ++ " km/h" ++ " | Kraftstoff: " ++ kr.pyStr) ∧
      (∀ ma mo bj ge be kr : Val,
        Fahrzeug.toStr (.motorrad ma mo bj ge be kr) =
          ma.pyStr ++ " " ++ mo.pyStr ++ " (" ++ bj.pyStr ++ ") | " ++ ge.pyStr
            ++ " km/h" ++ " | Kraftstoff: " ++ kr.pyStr) ∧
      (∀ ma mo bj ge be en : Val,
        Fahrzeug.toStr (.elektroauto ma mo bj ge be en) =
          ma.pyStr ++ " " ++ mo.pyStr ++ " (" ++ bj.pyStr ++ ") | " ++ ge.pyStr
            ++ " km/h" ++ " | Energiequelle: " ++ en.pyStr) ∧
      "Toyota Yaris (2020) | 170 km/h | Kraftstoff: Petrol".data <:+:
        (Fahrzeug.toStr yarisAuto).data := by
  refine ⟨fun _ _ _ _ _ _ => rfl, fun _ _ _ _ _ _ => rfl, fun _ _ _ _ _ _ => rfl, ?_⟩
  decide

/-- Claim C9: `beschleunigen()` of every variant is the shared base wording
applied to the instance's brand, model and acceleration fields, so any two
vehicles with equal shared fields — whatever their variants and
variant-specific payloads — produce character-for-character identical
text. -/
theorem beschleunigen_shared_wording :
    ∀ ma mo bj ge be kr en kr2 : Val,
      Fahrzeug.beschleunigen (.auto ma mo bj ge be kr) =
          Fahrzeug.beschleunigenBase ma mo be ∧
        Fahrzeug.beschleunigen (.elektroauto ma mo bj ge be en) =
          Fahrzeug.beschleunigenBase ma mo be ∧
        Fahrzeug.beschleunigen (.motorrad ma mo bj ge be kr2) =
          Fahrzeug.beschleunigenBase ma mo be ∧
        Fahrzeug.beschleunigen (.auto ma mo bj ge be kr) =
          Fahrzeug.beschleunigen (.elektroauto ma mo bj ge be en) ∧
        Fahrzeug.beschleunigen (.elektroauto ma mo bj ge be en) =
          Fahrzeug.beschleunigen (.motorrad ma mo bj ge be kr2) :=
  fun _ _ _ _ _ _ _ _ => ⟨rfl, rfl, rfl, rfl, rfl⟩

/-- Claim C10: an `Auto` and a `Motorrad` built from the same six constructor
fields are indistinguishable through `__str__` and `beschleunigen`, and their
tagged records agree on every entry and on key order once the `"typ"` entry is
removed — the records differ only in the discriminator value (`"Auto"` versus
`"Motorrad"`). -/
theorem auto_motorrad_distinguished_only_by_typ :
    ∀ ma mo bj ge be kr : Val,
      Fahrzeug.toStr (.auto ma mo bj ge be kr) =
          Fahrzeug.toStr (.motorrad ma mo bj ge be kr) ∧
        Fahrzeug.beschleunigen (.auto ma mo bj ge be kr) =
          Fahrzeug.beschleunigen (.motorrad ma mo bj ge be kr) ∧
        (Fahrzeug.to_dict (.auto ma mo bj ge be kr)).popKey "typ" =
          (Fahrzeug.to_dict (.motorrad ma mo bj ge be kr)).popKey "typ" ∧
        (Fahrzeug.to_dict (.auto ma mo bj ge be kr)).keys =
          (Fahrzeug.to_dict (.motorrad ma mo bj ge be kr)).keys ∧
        (Fahrzeug.to_dict (.auto ma mo bj ge be kr)).get "typ" =
          some (.vstr "Auto") ∧
        (Fahrzeug.to_dict (.motorrad ma mo bj ge be kr)).get "typ" =
          some (.vstr "Motorrad") :=
  fun _ _ _ _ _ _ => ⟨rfl, rfl, rfl, rfl, rfl, rfl⟩
